import Mathlib

/-!
Shallow embedding of `src/core/usp_err.c` (USP Agent error-message handling).

The C module keeps one shared buffer `usp_error` of capacity `USP_ERR_MAXLEN`,
plus functions `USP_ERR_Init`, `USP_ERR_SetMessage`, `USP_ERR_ClearMessage`,
`USP_ERR_ReplaceEmptyMessage`, `USP_ERR_GetMessage`, `USP_ERR_Terminate` and
the signal handler `SegFaultHandler`.

Modelling choices:
* A C string buffer is modelled by the `List Char` of its contents up to the
  terminating NUL; "null-terminated of length < capacity" becomes
  `length < capacity` on that list.
* `vsnprintf(buf, n, fmt, ap)` is modelled by taking the fully rendered text
  (the printf rendering of `fmt` with its arguments) as an abstract input and
  truncating it to `n - 1` characters (`snprintfTrunc`), which is exactly the
  effect of `vsnprintf` followed by the `buf[n-1] = '\0'` store in the source.
* Calls into the external log sink (`USP_LOG_Puts`, `USP_LOG_Callstack`,
  `USP_LOG_Error`) are recorded as events in a trace; the sink itself is
  outside this module.
* `abort()` is modelled by the `Outcome.aborted` result of the fatal
  functions; they return a final state plus that outcome instead of returning
  control.
* The value of the macro `USP_ERR_MAXLEN` is defined in a header that is not
  part of the sources, so every operation is parametrised by the capacity
  `maxlen`.
-/

/-- Modelled from the spec: the log-type tag passed to the external log sink
(`usp_log.h` is not among the sources; this module only ever passes
`kLogType_Debug`). -/
inductive LogType where
  | debug
deriving DecidableEq, Repr

/-- Observable requests this module makes of the external log sink:
`USP_LOG_Puts(type, text)`, `USP_LOG_Callstack()` and `USP_LOG_Error(text)`. -/
inductive LogEvent where
  | puts (t : LogType) (text : List Char)
  | callstack
  | logError (text : List Char)
deriving DecidableEq, Repr

/-- Modelled from the spec: numeric value of the log-level enum constant
`kLogLevel_Error` (the enum lives in `usp_log.h`, not among the sources).
Only the comparison `usp_log_level >= kLogLevel_Error` matters; error level
sits above the quietest level 0. -/
def kLogLevel_Error : Nat := 1

/-- Modelled from the spec: process-global inputs this module consumes but
does not own — the thread classifier `OS_UTILS_IsDataModelThread`, the log
verbosity `usp_log_level` and the `enable_callstack_debug` flag. -/
structure ErrEnv where
  isDataModelThread : Bool
  usp_log_level : Nat
  enable_callstack_debug : Bool
deriving DecidableEq, Repr

/-- The mutable state of the module: the shared buffer `usp_error`, the trace
of log-sink requests emitted so far, and whether `USP_ERR_Init` has installed
the SIGSEGV handler. -/
structure ErrState where
  usp_error : List Char
  log : List LogEvent
  segvHandlerInstalled : Bool
deriving DecidableEq, Repr

/-- Outcome of a fatal function: the process is aborted via `abort()`
(a core-dump-producing mechanism); control never returns to the caller. -/
inductive Outcome where
  | aborted
deriving DecidableEq, Repr

/-- Effect of `vsnprintf(buf, capacity, ...)` followed by
`buf[capacity-1] = '\0'`: the rendered text truncated to `capacity - 1`
characters, always leaving a terminated string. -/
def snprintfTrunc (capacity : Nat) (rendered : List Char) : List Char :=
  rendered.take (capacity - 1)

/-- Initial state, from `static char usp_error[USP_ERR_MAXLEN] = { 0 };` —
the buffer starts empty at process start; no handler installed, nothing logged yet. -/
def initState : ErrState :=
  { usp_error := [], log := [], segvHandlerInstalled := false }

/-- Embeds `USP_ERR_Init`: installs `SegFaultHandler` on SIGSEGV and does nothing
else. -/
def USP_ERR_Init (st : ErrState) : ErrState :=
  { st with segvHandlerInstalled := true }

/-- Log-sink requests made by one `USP_ERR_SetMessage` call: the formatted
text if `usp_log_level >= kLogLevel_Error`, then a callstack dump if
`enable_callstack_debug` is set. (In the non-primary case the local buffer
has the same capacity `USP_ERR_MAXLEN`, so the logged text is the same
truncation.) -/
def setMessageEvents (maxlen : Nat) (env : ErrEnv) (rendered : List Char) :
    List LogEvent :=
  (if kLogLevel_Error ≤ env.usp_log_level then
    [LogEvent.puts LogType.debug (snprintfTrunc maxlen rendered)]
  else []) ++
  (if env.enable_callstack_debug then [LogEvent.callstack] else [])

/-- Embeds `USP_ERR_SetMessage`: if `OS_UTILS_IsDataModelThread` holds, formats into
the shared buffer `usp_error`; otherwise formats into the call-scoped
`local_buf`, which is discarded, leaving `usp_error` untouched. Then logs
and optionally dumps the callstack. -/
def USP_ERR_SetMessage (maxlen : Nat) (env : ErrEnv) (st : ErrState)
    (rendered : List Char) : ErrState :=
  { st with
      usp_error :=
        if env.isDataModelThread then snprintfTrunc maxlen rendered
        else st.usp_error,
      log := st.log ++ setMessageEvents maxlen env rendered }

/-- Embeds `USP_ERR_ClearMessage` (`usp_error[0] = '\0';`) — resets the shared buffer
to empty, unconditionally. -/
def USP_ERR_ClearMessage (st : ErrState) : ErrState :=
  { st with usp_error := [] }

/-- Log-sink requests made by one `USP_ERR_ReplaceEmptyMessage` call: nothing
when the stored message is non-empty (early return); otherwise the formatted
text if the log level permits. It never requests a callstack dump. -/
def replaceEmptyMessageEvents (maxlen : Nat) (env : ErrEnv) (st : ErrState)
    (rendered : List Char) : List LogEvent :=
  if st.usp_error = [] then
    (if kLogLevel_Error ≤ env.usp_log_level then
      [LogEvent.puts LogType.debug (snprintfTrunc maxlen rendered)]
    else [])
  else []

/-- Embeds `USP_ERR_ReplaceEmptyMessage`: returns immediately when `usp_error` is
non-empty; otherwise formats into the shared buffer and logs if the level
permits. -/
def USP_ERR_ReplaceEmptyMessage (maxlen : Nat) (env : ErrEnv) (st : ErrState)
    (rendered : List Char) : ErrState :=
  if st.usp_error = [] then
    { st with
        usp_error := snprintfTrunc maxlen rendered,
        log := st.log ++ replaceEmptyMessageEvents maxlen env st rendered }
  else st

/-- Embeds `USP_ERR_GetMessage`: returns the shared buffer's current contents. -/
def USP_ERR_GetMessage (st : ErrState) : List Char :=
  st.usp_error

/-- The closing notice `USP_ERR_Terminate` logs before aborting. -/
def exitingText : List Char := "Exiting USP Agent".toList

/-- Log-sink requests made by one `USP_ERR_Terminate` call: when
`usp_log_level >= kLogLevel_Error`, the formatted message, a callstack dump
and the closing "Exiting USP Agent" notice, in that order; otherwise none
(all three calls sit inside the same `if`). -/
def terminateEvents (maxlen : Nat) (env : ErrEnv) (rendered : List Char) :
    List LogEvent :=
  if kLogLevel_Error ≤ env.usp_log_level then
    [LogEvent.puts LogType.debug (snprintfTrunc maxlen rendered),
     LogEvent.callstack,
     LogEvent.puts LogType.debug exitingText]
  else []

/-- Embeds `USP_ERR_Terminate`: formats into the shared buffer `usp_error`
(unconditionally, with no thread check), emits its log events, then calls
`abort()`. -/
def USP_ERR_Terminate (maxlen : Nat) (env : ErrEnv) (st : ErrState)
    (rendered : List Char) : ErrState × Outcome :=
  ({ st with
      usp_error := snprintfTrunc maxlen rendered,
      log := st.log ++ terminateEvents maxlen env rendered },
   Outcome.aborted)

/-- The text passed to `USP_LOG_Error` by the fault handler. -/
def segFaultText : List Char := "ERROR: Segmentation Fault".toList

/-- Embeds `SegFaultHandler`: unconditionally calls
`USP_LOG_Error("ERROR: Segmentation Fault")`, then `USP_LOG_Callstack()`,
then `abort()`; it consults no configuration and never returns. -/
def SegFaultHandler (st : ErrState) : ErrState × Outcome :=
  ({ st with log := st.log ++ [LogEvent.logError segFaultText,
                               LogEvent.callstack] },
   Outcome.aborted)

/-- The operations that write the shared buffer, for stating the buffer
invariant. -/
inductive ErrOp where
  | setMessage (rendered : List Char)
  | replaceEmptyMessage (rendered : List Char)
  | clearMessage
  | terminate (rendered : List Char)
deriving DecidableEq, Repr

/-- Dispatch one operation on the state (for `terminate`, the state the
process aborts in). -/
def applyOp (maxlen : Nat) (env : ErrEnv) (st : ErrState) : ErrOp → ErrState
  | ErrOp.setMessage r => USP_ERR_SetMessage maxlen env st r
  | ErrOp.replaceEmptyMessage r => USP_ERR_ReplaceEmptyMessage maxlen env st r
  | ErrOp.clearMessage => USP_ERR_ClearMessage st
  | ErrOp.terminate r => (USP_ERR_Terminate maxlen env st r).1

/-- The shared-buffer invariant: `usp_error` is empty or a terminated string
of length strictly below the capacity. -/
def bufferInv (maxlen : Nat) (st : ErrState) : Prop :=
  st.usp_error = [] ∨ st.usp_error.length < maxlen

instance (maxlen : Nat) (st : ErrState) : Decidable (bufferInv maxlen st) := by
  unfold bufferInv; infer_instance

/-- A primary-thread environment with quiet logging, for concrete runs. -/
def envPrimaryQuiet : ErrEnv :=
  { isDataModelThread := true, usp_log_level := 0,
    enable_callstack_debug := false }

/-- A non-primary-thread environment with verbose logging, for concrete
runs. -/
def envOtherVerbose : ErrEnv :=
  { isDataModelThread := false, usp_log_level := 3,
    enable_callstack_debug := true }

/-- A ten-character rendering, longer than the small capacities used in the
concrete runs. -/
def longText : List Char := "abcdefghij".toList

/-- A state whose shared buffer holds the spec scenario text
"root cause A". -/
def stRootCause : ErrState :=
  { usp_error := "root cause A".toList, log := [],
    segvHandlerInstalled := false }

/-- The spec scenario text "generic failure". -/
def genericFailureText : List Char := "generic failure".toList

/-- The spec scenario text "fallback message". -/
def fallbackText : List Char := "fallback message".toList

/-- Number of `USP_LOG_Callstack` requests in a trace. -/
def countCallstack : List LogEvent → Nat
  | [] => 0
  | LogEvent.callstack :: rest => countCallstack rest + 1
  | _ :: rest => countCallstack rest

/-- C1: on the primary thread (`OS_UTILS_IsDataModelThread` true),
`USP_ERR_SetMessage` stores the rendered text in the shared buffer, so
`USP_ERR_GetMessage` returns exactly that text; when the rendering reaches
or exceeds the capacity `USP_ERR_MAXLEN`, the stored text is the rendering
truncated to `MAXLEN - 1` characters (the terminator takes the last byte). -/
theorem setMessage_primary_stores_rendered (maxlen : Nat) (env : ErrEnv)
    (st : ErrState) (rendered : List Char)
    (hm : 1 ≤ maxlen) (hp : env.isDataModelThread = true) :
    (rendered.length < maxlen →
      USP_ERR_GetMessage (USP_ERR_SetMessage maxlen env st rendered) = rendered) ∧
    (maxlen ≤ rendered.length →
      USP_ERR_GetMessage (USP_ERR_SetMessage maxlen env st rendered) =
        rendered.take (maxlen - 1) ∧
      (USP_ERR_GetMessage (USP_ERR_SetMessage maxlen env st rendered)).length =
        maxlen - 1) := by
  constructor
  · intro h
    simp only [USP_ERR_GetMessage, USP_ERR_SetMessage, snprintfTrunc, hp,
      if_true]
    exact List.take_of_length_le (by omega)
  · intro h
    refine ⟨by simp [USP_ERR_GetMessage, USP_ERR_SetMessage, snprintfTrunc, hp], ?_⟩
    simp only [USP_ERR_GetMessage, USP_ERR_SetMessage, snprintfTrunc, hp,
      if_true, List.length_take]
    omega

/-- Witness for C1: capacity 8, primary thread, ten-character rendering —
the stored text is the first 7 characters. -/
theorem setMessage_primary_stores_rendered_witness :
    1 ≤ 8 ∧ envPrimaryQuiet.isDataModelThread = true ∧
    8 ≤ longText.length ∧
    USP_ERR_GetMessage (USP_ERR_SetMessage 8 envPrimaryQuiet initState longText) =
      longText.take 7 ∧
    (USP_ERR_GetMessage (USP_ERR_SetMessage 8 envPrimaryQuiet initState longText)).length = 7 :=
  ⟨by decide, rfl, by decide,
    ((setMessage_primary_stores_rendered 8 envPrimaryQuiet initState longText
      (by decide) rfl).2 (by decide)).1,
    ((setMessage_primary_stores_rendered 8 envPrimaryQuiet initState longText
      (by decide) rfl).2 (by decide)).2⟩

/-- C2: when the caller is classified as non-primary,
`USP_ERR_SetMessage` formats only into the discarded local buffer: the
shared buffer `usp_error` is unchanged and `USP_ERR_GetMessage` returns the
same contents as before the call. -/
theorem setMessage_nonprimary_shared_unchanged (maxlen : Nat) (env : ErrEnv)
    (st : ErrState) (rendered : List Char)
    (hp : env.isDataModelThread = false) :
    USP_ERR_GetMessage (USP_ERR_SetMessage maxlen env st rendered) =
      USP_ERR_GetMessage st ∧
    (USP_ERR_SetMessage maxlen env st rendered).usp_error = st.usp_error := by
  constructor <;>
    simp [USP_ERR_GetMessage, USP_ERR_SetMessage, hp]

/-- Witness for C2: a non-primary call over a buffer holding
"root cause A" leaves `USP_ERR_GetMessage` unchanged. -/
theorem setMessage_nonprimary_shared_unchanged_witness :
    envOtherVerbose.isDataModelThread = false ∧
    USP_ERR_GetMessage (USP_ERR_SetMessage 8 envOtherVerbose stRootCause longText) =
      USP_ERR_GetMessage stRootCause :=
  ⟨rfl, (setMessage_nonprimary_shared_unchanged 8 envOtherVerbose stRootCause
    longText rfl).1⟩

/-- C3 counterexample: with `usp_log_level` below `kLogLevel_Error`,
`USP_ERR_Terminate` emits no log events at all — the "log the formatted
text", "call-stack diagnostic" and "exiting" steps are all skipped, so the
claimed unconditional five-step sequence does not happen. -/
theorem terminate_logging_skippable_counterexample :
    (USP_ERR_Terminate 16 envPrimaryQuiet initState longText).1.log = [] ∧
    ¬ ((USP_ERR_Terminate 16 envPrimaryQuiet initState longText).1.log =
        [LogEvent.puts LogType.debug (snprintfTrunc 16 longText),
         LogEvent.callstack,
         LogEvent.puts LogType.debug exitingText]) := by
  constructor
  · rfl
  · decide

/-- C3 (amended): every `USP_ERR_Terminate` call formats the message into
the shared buffer and then aborts the process via `abort()` without
returning; when the log level is at least error level it also, in between
and in order, logs the formatted text, emits the call-stack diagnostic and
logs the closing "Exiting USP Agent" notice, while below error level those
three log steps are skipped. -/
theorem terminate_formats_then_aborts (maxlen : Nat) (env : ErrEnv)
    (st : ErrState) (rendered : List Char) :
    (USP_ERR_Terminate maxlen env st rendered).2 = Outcome.aborted ∧
    (USP_ERR_Terminate maxlen env st rendered).1.usp_error =
      snprintfTrunc maxlen rendered ∧
    (kLogLevel_Error ≤ env.usp_log_level →
      (USP_ERR_Terminate maxlen env st rendered).1.log =
        st.log ++ [LogEvent.puts LogType.debug (snprintfTrunc maxlen rendered),
                   LogEvent.callstack,
                   LogEvent.puts LogType.debug exitingText]) ∧
    (env.usp_log_level < kLogLevel_Error →
      (USP_ERR_Terminate maxlen env st rendered).1.log = st.log) := by
  refine ⟨rfl, rfl, ?_, ?_⟩
  · intro h
    simp [USP_ERR_Terminate, terminateEvents, h]
  · intro h
    simp [USP_ERR_Terminate, terminateEvents, Nat.not_le.mpr h]

/-- Witness for C3's amended theorem: with verbose logging the three log
steps occur in order; the outcome is always `aborted`. -/
theorem terminate_formats_then_aborts_witness :
    kLogLevel_Error ≤ envOtherVerbose.usp_log_level ∧
    (USP_ERR_Terminate 8 envOtherVerbose initState longText).2 = Outcome.aborted ∧
    (USP_ERR_Terminate 8 envOtherVerbose initState longText).1.log =
      [LogEvent.puts LogType.debug (snprintfTrunc 8 longText),
       LogEvent.callstack,
       LogEvent.puts LogType.debug exitingText] :=
  ⟨by decide,
   (terminate_formats_then_aborts 8 envOtherVerbose initState longText).1,
   by
    have h := (terminate_formats_then_aborts 8 envOtherVerbose initState
      longText).2.2.1 (by decide)
    simpa [initState] using h⟩

/-- C4: `USP_ERR_ReplaceEmptyMessage` writes the rendered text (under the
module's truncation policy) into the shared buffer exactly when the buffer
is empty; when it holds non-empty text the call is a complete no-op. -/
theorem replaceEmptyMessage_writes_iff_empty (maxlen : Nat) (env : ErrEnv)
    (st : ErrState) (rendered : List Char) :
    (st.usp_error ≠ [] →
      USP_ERR_ReplaceEmptyMessage maxlen env st rendered = st) ∧
    (st.usp_error = [] →
      USP_ERR_GetMessage (USP_ERR_ReplaceEmptyMessage maxlen env st rendered) =
        snprintfTrunc maxlen rendered) := by
  constructor
  · intro h
    simp [USP_ERR_ReplaceEmptyMessage, h]
  · intro h
    simp [USP_ERR_ReplaceEmptyMessage, USP_ERR_GetMessage, h]

/-- Witness for C4, covering both spec scenarios: with "root cause A"
stored, `ReplaceEmptyMessage("generic failure")` changes nothing; after
`ClearMessage`, `ReplaceEmptyMessage("fallback message")` stores the text. -/
theorem replaceEmptyMessage_writes_iff_empty_witness :
    (stRootCause.usp_error ≠ [] ∧
      USP_ERR_ReplaceEmptyMessage 64 envPrimaryQuiet stRootCause
        genericFailureText = stRootCause) ∧
    ((USP_ERR_ClearMessage stRootCause).usp_error = [] ∧
      USP_ERR_GetMessage (USP_ERR_ReplaceEmptyMessage 64 envPrimaryQuiet
        (USP_ERR_ClearMessage stRootCause) fallbackText) = fallbackText) :=
  ⟨⟨by decide,
    (replaceEmptyMessage_writes_iff_empty 64 envPrimaryQuiet stRootCause
      genericFailureText).1 (by decide)⟩,
   ⟨rfl,
    by
      have h := (replaceEmptyMessage_writes_iff_empty 64 envPrimaryQuiet
        (USP_ERR_ClearMessage stRootCause) fallbackText).2 rfl
      rw [h]; decide⟩⟩

/-- C5: the shared buffer is empty at process start and every operation
(`SetMessage`, `ReplaceEmptyMessage`, `ClearMessage`, `Terminate`) preserves
the invariant that it is empty or a terminated string of length strictly
below `USP_ERR_MAXLEN` — over-long renderings are silently truncated. -/
theorem usp_error_always_bounded (maxlen : Nat) (hm : 1 ≤ maxlen) :
    bufferInv maxlen initState ∧
    ∀ (env : ErrEnv) (st : ErrState) (op : ErrOp),
      bufferInv maxlen st → bufferInv maxlen (applyOp maxlen env st op) := by
  constructor
  · exact Or.inl rfl
  · intro env st op hst
    unfold bufferInv at hst ⊢
    cases op with
    | setMessage r =>
        by_cases hp : env.isDataModelThread
        · right
          simp only [applyOp, USP_ERR_SetMessage, hp, if_true, snprintfTrunc,
            List.length_take]
          omega
        · simpa [applyOp, USP_ERR_SetMessage, hp] using hst
    | replaceEmptyMessage r =>
        by_cases he : st.usp_error = []
        · right
          simp only [applyOp, USP_ERR_ReplaceEmptyMessage, he, if_true,
            snprintfTrunc, List.length_take]
          omega
        · simpa [applyOp, USP_ERR_ReplaceEmptyMessage, he] using hst
    | clearMessage => exact Or.inl rfl
    | terminate r =>
        right
        simp only [applyOp, USP_ERR_Terminate, snprintfTrunc, List.length_take]
        omega

/-- Witness for C5: with capacity 4, a ten-character `SetMessage` from the
initial state keeps the buffer within bounds. -/
theorem usp_error_always_bounded_witness :
    1 ≤ 4 ∧
    bufferInv 4 (applyOp 4 envPrimaryQuiet initState (ErrOp.setMessage longText)) :=
  ⟨by decide,
   (usp_error_always_bounded 4 (by decide)).2 envPrimaryQuiet initState
     (ErrOp.setMessage longText) (usp_error_always_bounded 4 (by decide)).1⟩

/-- C6: for every state of the shared buffer, `USP_ERR_ClearMessage`
followed immediately by `USP_ERR_GetMessage` returns the empty string. -/
theorem clearMessage_then_getMessage_empty (st : ErrState) :
    USP_ERR_GetMessage (USP_ERR_ClearMessage st) = [] := rfl

/-- C7: whenever `SegFaultHandler` is invoked, in any state, it requests the
best-effort log line and the call-stack capture from the log sink and then
aborts the process; it consults no configuration, touches nothing else, and
control never returns (the outcome is always `aborted`). -/
theorem segFaultHandler_always_aborts (st : ErrState) :
    (SegFaultHandler st).2 = Outcome.aborted ∧
    (SegFaultHandler st).1.log =
      st.log ++ [LogEvent.logError segFaultText, LogEvent.callstack] ∧
    (SegFaultHandler st).1.usp_error = st.usp_error ∧
    (SegFaultHandler st).1.segvHandlerInstalled = st.segvHandlerInstalled :=
  ⟨rfl, rfl, rfl, rfl⟩

/-- C8: `USP_ERR_Terminate`, `USP_ERR_ReplaceEmptyMessage` and
`USP_ERR_ClearMessage` never consult `OS_UTILS_IsDataModelThread` — their
result is identical whatever the thread classification — and from a
non-primary thread they still mutate the shared buffer (`Terminate` always
writes it, `ClearMessage` always empties it, `ReplaceEmptyMessage` writes it
when empty), whereas `USP_ERR_SetMessage` does change behaviour with the
classification. -/
theorem only_setMessage_consults_classifier (maxlen : Nat) (env : ErrEnv)
    (b : Bool) (st : ErrState) (rendered : List Char) :
    USP_ERR_Terminate maxlen { env with isDataModelThread := b } st rendered =
      USP_ERR_Terminate maxlen env st rendered ∧
    USP_ERR_ReplaceEmptyMessage maxlen { env with isDataModelThread := b } st
      rendered = USP_ERR_ReplaceEmptyMessage maxlen env st rendered ∧
    (USP_ERR_Terminate maxlen { env with isDataModelThread := false } st
      rendered).1.usp_error = snprintfTrunc maxlen rendered ∧
    (USP_ERR_ClearMessage st).usp_error = [] ∧
    (st.usp_error = [] →
      (USP_ERR_ReplaceEmptyMessage maxlen { env with isDataModelThread := false }
        st rendered).usp_error = snprintfTrunc maxlen rendered) ∧
    USP_ERR_SetMessage 8 { envPrimaryQuiet with isDataModelThread := true }
      initState longText ≠
      USP_ERR_SetMessage 8 { envPrimaryQuiet with isDataModelThread := false }
      initState longText := by
  refine ⟨rfl, rfl, rfl, rfl, ?_, by decide⟩
  intro h
  simp [USP_ERR_ReplaceEmptyMessage, h]

/-- Witness for C8: after clearing, a non-primary `ReplaceEmptyMessage`
call writes the shared buffer. -/
theorem only_setMessage_consults_classifier_witness :
    (USP_ERR_ClearMessage stRootCause).usp_error = [] ∧
    (USP_ERR_ReplaceEmptyMessage 8 { envOtherVerbose with isDataModelThread := false }
      (USP_ERR_ClearMessage stRootCause) longText).usp_error =
      snprintfTrunc 8 longText :=
  ⟨rfl,
   (only_setMessage_consults_classifier 8 envOtherVerbose false
     (USP_ERR_ClearMessage stRootCause) longText).2.2.2.2.1 rfl⟩

/-- C9: in `USP_ERR_SetMessage` the call-stack diagnostic is emitted exactly
when `enable_callstack_debug` is set, independently of the log level (so
also when the level is below error level), while
`USP_ERR_ReplaceEmptyMessage` never emits a call-stack diagnostic, whatever
the flag. -/
theorem callstack_emission_policy (maxlen : Nat) (env : ErrEnv)
    (st : ErrState) (rendered : List Char) :
    (USP_ERR_SetMessage maxlen env st rendered).log =
      st.log ++ setMessageEvents maxlen env rendered ∧
    countCallstack (setMessageEvents maxlen env rendered) =
      (if env.enable_callstack_debug then 1 else 0) ∧
    (USP_ERR_ReplaceEmptyMessage maxlen env st rendered).log =
      st.log ++ replaceEmptyMessageEvents maxlen env st rendered ∧
    countCallstack (replaceEmptyMessageEvents maxlen env st rendered) = 0 := by
  refine ⟨rfl, ?_, ?_, ?_⟩
  · unfold setMessageEvents
    by_cases h1 : kLogLevel_Error ≤ env.usp_log_level <;>
      by_cases h2 : env.enable_callstack_debug <;>
        simp [h1, h2, countCallstack]
  · unfold USP_ERR_ReplaceEmptyMessage
    by_cases he : st.usp_error = [] <;> simp [he, replaceEmptyMessageEvents]
  · unfold replaceEmptyMessageEvents
    by_cases he : st.usp_error = [] <;>
      by_cases h1 : kLogLevel_Error ≤ env.usp_log_level <;>
        simp [he, h1, countCallstack]

/-- C10: `USP_ERR_Init` only installs the SIGSEGV handler; the shared buffer
and the log trace are untouched, so `USP_ERR_GetMessage` returns the same
contents before and after the call. -/
theorem init_installs_handler_only (st : ErrState) :
    USP_ERR_GetMessage (USP_ERR_Init st) = USP_ERR_GetMessage st ∧
    (USP_ERR_Init st).usp_error = st.usp_error ∧
    (USP_ERR_Init st).log = st.log ∧
    (USP_ERR_Init st).segvHandlerInstalled = true :=
  ⟨rfl, rfl, rfl, rfl⟩
